import Mathlib

/-!
Verification of the lexora-ai-phase2 Wav2Lip video-generation services.

Shallow embedding of three service variants found in the repository:

* `Enhanced` — `server/Wav2Lip/enhanced_wav2lip.py` (the production-style
  Flask service: validation, admission control, registry, cleanup, S3);
* `AppMain` — `server/Wav2Lip/app/main.py` together with
  `app/video_sadtalker.py`, `app/tts_elevenlabs.py`, `app/aws_service.py`
  (the SadTalker-backed pipeline with voice cloning);
* `MainSvc` — `server/Wav2Lip/main.py` (the older service variant; only its
  `download_file` and `upload_to_s3` are relevant to the claims).

External effects (HTTP requests, gTTS, ffmpeg subprocesses, boto3, the
filesystem) are modelled by explicit oracle records: each field records the
outcome of one external call (did it succeed, did it create its output file
before failing, what status code came back).  The Lean functions then follow
the Python control flow over those outcomes.  The set of files existing in
the scratch directory is threaded explicitly as a `List String`.
-/

namespace Wav2Lip

/-! ### Python string primitives

Re-implemented by structural recursion over `String.data` so that every
definition evaluates inside the kernel (the corresponding core-library
`String` functions use well-founded recursion over byte positions). -/

/-- The whitespace characters Python's `str.strip()` removes (the ones that
occur in practice in these payloads). -/
def isSpaceChar (c : Char) : Bool := c = ' ' || c = '\t' || c = '\n' || c = '\r'

def dropLeadingWs : List Char → List Char
  | [] => []
  | c :: cs => if isSpaceChar c then dropLeadingWs cs else c :: cs

/-- Python `s.strip()`. -/
def pyStrip (s : String) : String :=
  ⟨(dropLeadingWs ((dropLeadingWs s.data).reverse)).reverse⟩

/-- Python `s.startswith(pat)` (pattern first). -/
def startsWithChars : List Char → List Char → Bool
  | [], _ => true
  | _ :: _, [] => false
  | p :: ps, c :: cs => p = c && startsWithChars ps cs

def pyStartsWith (s pat : String) : Bool := startsWithChars pat.data s.data

/-- The characters before the first `'-'`: Python `s.split('-')[0]`. -/
def takeUntilDash : List Char → List Char
  | [] => []
  | c :: cs => if c = '-' then [] else c :: takeUntilDash cs

/-- Python `s.split('-')[0].lower()`. -/
def primaryLangTag (s : String) : String :=
  ⟨(takeUntilDash s.data).map Char.toLower⟩

/-- A dynamically-typed JSON scalar, as found in a parsed request body.
Needed because Python's `voice_options.get('speed', 1.0)` can hand a
non-numeric value straight to the comparison `0.5 <= speed <= 2.0`. -/
inductive JVal where
  | jnull
  | jbool (b : Bool)
  | jnum (q : ℚ)
  | jstr (s : String)
  deriving Repr, DecidableEq

/-- Python exception classes that the embedded code can raise. -/
inductive PyError where
  | typeError
  | badRequest (msg : String)
  deriving Repr, DecidableEq

/-- Python's `x <= v` where `x` is a float and `v` an arbitrary JSON value:
numbers compare; `bool` is an `int` subclass (True = 1, False = 0); anything
else raises `TypeError`. -/
def pyLeNum (x : ℚ) (v : JVal) : Except PyError Bool :=
  match v with
  | .jnum q => .ok (x ≤ q)
  | .jbool b => .ok (x ≤ (if b then (1 : ℚ) else 0))
  | _ => .error .typeError

/-- Python's `v <= x` for a JSON value against a float (same coercions). -/
def pyNumLe (v : JVal) (x : ℚ) : Except PyError Bool :=
  match v with
  | .jnum q => .ok (q ≤ x)
  | .jbool b => .ok ((if b then (1 : ℚ) else 0) ≤ x)
  | _ => .error .typeError

/-- Python's chained comparison `lo <= v <= hi`: evaluates `lo <= v` first
(raising `TypeError` on a non-numeric `v`), then `v <= hi` only if the first
half was true. -/
def pyChainedLe (lo : ℚ) (v : JVal) (hi : ℚ) : Except PyError Bool := do
  let l ← pyLeNum lo v
  if l then pyNumLe v hi else pure false

/-- The JSON body of a `POST /generate-video` request, after
`data.get('script','')`, `data.get('avatar_url','')`,
`data.get('voice_options',{})`, `data.get('lesson_id','')` defaulting.
`voice_language` is `voice_options.get('language')` when the key is
present, `voice_speed` is `voice_options.get('speed')` kept dynamically
typed, `voice_sample_url` is `voice_options.get('voice_sample_url')`. -/
structure Payload where
  script : String
  avatar_url : String
  voice_language : Option String
  voice_speed : Option JVal
  voice_sample_url : Option String
  lesson_id : String
  deriving Repr, DecidableEq

namespace Enhanced

/-! ### enhanced_wav2lip.py — configuration (CONFIG dict, lines 32–43) -/

def TEMP_DIR : String := "C:/temp/wav2lip"
def MAX_FILE_SIZE : Nat := 100 * 1024 * 1024
def AWS_REGION : String := "us-east-1"
def S3_BUCKET : String := "lexora-assets"
def MAX_SCRIPT_LENGTH : Nat := 10000
def SUPPORTED_LANGUAGES : List String :=
  ["en", "es", "fr", "de", "it", "pt", "ru", "ja", "ko", "zh"]
def DEFAULT_VOICE_SPEED : ℚ := 1
def MAX_CONCURRENT_JOBS : Nat := 5

/-- `language.split('-')[0].lower()` (line 86). -/
def langCode (language : String) : String := primaryLangTag language

/-- `voice_options.get('language', 'en')`. -/
def languageOf (d : Payload) : String := d.voice_language.getD "en"

/-- `voice_options.get('speed', CONFIG['DEFAULT_VOICE_SPEED'])`. -/
def speedVal (d : Payload) : JVal := d.voice_speed.getD (.jnum DEFAULT_VOICE_SPEED)

/-- `EnhancedWav2LipService.validate_request` (lines 66–94).  Returns the
`(bool, str)` pair of the Python function, or the `TypeError` escaping from
the `0.5 <= speed <= 2.0` comparison when `speed` is not a number. -/
def validate_request (d : Payload) : Except PyError (Bool × String) := do
  let script := pyStrip d.script
  let avatar_url := pyStrip d.avatar_url
  if script = "" then
    return (false, "Script text is required")
  if MAX_SCRIPT_LENGTH < script.data.length then
    return (false, "Script too long (max 10000 characters)")
  if avatar_url = "" then
    return (false, "Avatar URL is required")
  if ¬ (pyStartsWith avatar_url "http://" || pyStartsWith avatar_url "https://") then
    return (false, "Avatar URL must be a valid HTTP/HTTPS URL")
  if ¬ (langCode (languageOf d) ∈ SUPPORTED_LANGUAGES) then
    return (false, "Language not supported")
  let inRange ← pyChainedLe (mkRat 1 2) (speedVal d) 2
  if ¬ inRange then
    return (false, "Voice speed must be between 0.5 and 2.0")
  return (true, "")

/-! ### enhanced_wav2lip.py — file-system model and pipeline steps -/

/-- The scratch directory contents as a set of paths (duplicate-free list). -/
def insertFile (p : String) (fs : List String) : List String :=
  if p ∈ fs then fs else fs ++ [p]

/-- `os.remove(p)` (preceded by an existence check in `cleanup_temp_files`). -/
def removeFile (p : String) (fs : List String) : List String :=
  fs.filter (fun q => q ≠ p)

/-- `cleanup_temp_files` (lines 313–321): removes every path of the given
list that exists, swallowing per-file errors. -/
def cleanup_temp_files (tf fs : List String) : List String :=
  fs.filter (fun q => q ∉ tf)

/-- Session-scoped scratch paths built at lines 404–406. -/
def avatarPath (ts sid : String) : String :=
  TEMP_DIR ++ "/" ++ ts ++ "_" ++ sid ++ "_avatar.jpg"

def audioPath (ts sid : String) : String :=
  TEMP_DIR ++ "/" ++ ts ++ "_" ++ sid ++ "_audio.wav"

def videoPath (ts sid : String) : String :=
  TEMP_DIR ++ "/" ++ ts ++ "_" ++ sid ++ "_output.mp4"

/-- `output_path + '_temp.mp3'` (line 148): the intermediate gTTS file. -/
def ttsTempPath (outputPath : String) : String := outputPath ++ "_temp.mp3"

/-- Outcomes of the external calls one `/generate-video` run performs.
For a call that can raise, a `...CreatedFile` flag records whether the
call's output file existed at the moment it failed (an external call that
streams into an open file can fail either before or after creating it). -/
structure EnhOracle where
  /-- `download_file` returned True (request, size and write all fine). -/
  downloadOk : Bool
  /-- when the download failed: was a (partial) file left at the target? -/
  downloadCreatedFile : Bool
  /-- `tts.save(temp_audio)` (line 149) returned without raising. -/
  ttsSaveOk : Bool
  /-- when `tts.save` raised: had it already created the temp file?
  (gTTS opens the output file for writing before streaming into it.) -/
  ttsSaveCreatedFile : Bool
  /-- the ffmpeg conversion/speed pass left a file at `output_path`
  (its return code is ignored by `generate_tts_audio`). -/
  ttsConvertCreatedOutput : Bool
  /-- `generate_enhanced_video`'s ffmpeg run returned code 0. -/
  renderOk : Bool
  /-- when the render failed: did ffmpeg leave a partial output file? -/
  renderCreatedOutput : Bool
  /-- ffprobe in `get_audio_duration` returned code 0 and parsed. -/
  probeOk : Bool
  /-- the duration ffprobe reported when it succeeded. -/
  probeDuration : ℚ
  /-- `self.s3_available`, fixed at service start by `_check_s3_availability`. -/
  s3Available : Bool
  /-- the boto3 `upload_file` call for the video raised. -/
  uploadVideoRaises : Bool
  /-- the boto3 `upload_file` call for the audio raised. -/
  uploadAudioRaises : Bool
  deriving Repr, DecidableEq

/-- `download_file` (lines 96–129), at the level the handler consumes it:
returns False on any failure (all exceptions are caught), and the target
file exists afterwards iff the download succeeded or failed mid-write.
(The streaming size check itself is modelled in detail by
`download_file_run` below for the fetch-bound claim.) -/
def download_file_effect (o : EnhOracle) (path : String) (fs : List String) :
    Bool × List String :=
  if o.downloadOk then (true, insertFile path fs)
  else (false, if o.downloadCreatedFile then insertFile path fs else fs)

/-- `download_file` (lines 96–129) in detail, for the size-bound claim:
`requestOk` is `requests.get` + `raise_for_status` succeeding,
`contentLength` the optional `content-length` header, `chunks` the sizes of
the streamed body chunks.  The body loop adds each chunk's length to
`downloaded_size` and raises `ValueError` as soon as it exceeds
`MAX_FILE_SIZE`; every exception is caught and turned into `False`.
The content-type check only logs a warning. -/
def download_file_run (requestOk : Bool) (contentLength : Option Nat)
    (chunks : List Nat) : Bool :=
  if ¬ requestOk then false
  else match contentLength with
    | some n =>
      if MAX_FILE_SIZE < n then false
      else streamChunks 0 chunks
    | none => streamChunks 0 chunks
where
  /-- the `for chunk in response.iter_content(...)` loop. -/
  streamChunks : Nat → List Nat → Bool
    | _, [] => true
    | acc, c :: rest =>
      if MAX_FILE_SIZE < acc + c then false
      else streamChunks (acc + c) rest

/-- `generate_tts_audio` (lines 131–164): saves gTTS output to
`output_path + '_temp.mp3'`, runs one ffmpeg pass into `output_path`
(speed-adjust when `speed != 1.0`, else format conversion — both are a
single subprocess whose boolean result is ignored), then `os.remove`s the
temp file.  If `tts.save` raises, the `except` branch returns False without
removing any file the save had already created.  Returns the boolean result
and the new file set. -/
def generate_tts_audio (o : EnhOracle) (outputPath : String)
    (fs : List String) : Bool × List String :=
  let temp_audio := ttsTempPath outputPath
  if o.ttsSaveOk then
    let fs1 := insertFile temp_audio fs
    let fs2 := if o.ttsConvertCreatedOutput then insertFile outputPath fs1 else fs1
    (true, removeFile temp_audio fs2)
  else
    (false, if o.ttsSaveCreatedFile then insertFile temp_audio fs else fs)

/-- `generate_enhanced_video` (lines 213–248): one ffmpeg subprocess;
True iff return code 0; a failing ffmpeg may still have opened the output. -/
def generate_enhanced_video (o : EnhOracle) (outputPath : String)
    (fs : List String) : Bool × List String :=
  if o.renderOk then (true, insertFile outputPath fs)
  else (false, if o.renderCreatedOutput then insertFile outputPath fs else fs)

/-- `get_audio_duration` (lines 292–311): the ffprobe'd duration when the
probe succeeds, the constant 5.0 seconds on any probe failure. -/
def get_audio_duration (o : EnhOracle) : ℚ :=
  if o.probeOk then o.probeDuration else 5

/-- The public URL string both the real and the mock branch of
`upload_to_s3` build (lines 254 and 271 are the same f-string). -/
def s3Url (s3Key : String) : String :=
  "https://" ++ S3_BUCKET ++ ".s3." ++ AWS_REGION ++ ".amazonaws.com/" ++ s3Key

/-- `upload_to_s3` (lines 250–277): mock URL when S3 was unavailable at
service start; otherwise the real upload, which returns `None` when the
boto3 call raises. -/
def upload_to_s3 (s3Available uploadRaises : Bool) (s3Key : String) :
    Option String :=
  if ¬ s3Available then some (s3Url s3Key)
  else if uploadRaises then none
  else some (s3Url s3Key)

/-! ### enhanced_wav2lip.py — the `/generate-video` handler -/

/-- Process-wide mutable state of the service: the active-job registry
(keys of `self.active_jobs`) and the scratch-directory contents. -/
structure SvcState where
  jobs : List String
  files : List String
  deriving Repr, DecidableEq

/-- What one handler invocation produced: the HTTP status of the response,
the state after the handler returned, whether `validate_request` was ever
invoked, the largest registry size observed during the run, and the
payload of a success response. -/
structure EnhResult where
  status : Nat
  jobs : List String
  files : List String
  validated : Bool
  peakJobs : Nat
  videoUrl : Option String
  audioUrl : Option String
  duration : Option ℚ
  deriving Repr, DecidableEq

/-- The common tail of every mid-pipeline failure (lines 461–466): clean up
`temp_files`, drop the session from the registry, re-raise; the outer
handler answers 500. -/
def failResult (tf : List String) (sid : String) (jobs fs : List String)
    (peak : Nat) : EnhResult :=
  { status := 500, jobs := jobs.filter (fun j => j ≠ sid),
    files := cleanup_temp_files tf fs, validated := true, peakJobs := peak,
    videoUrl := none, audioUrl := none, duration := none }

/-- The `/generate-video` handler (lines 361–473).  `payload` is `none` when
`request.get_json()` yields no data (→ BadRequest); `sid` and `ts` are the
fresh `uuid4` session id and the timestamp.  External outcomes come from
`o`.  Control flow follows the source line by line:
capacity check → JSON parse → `validate_request` → registry insert →
download → TTS → render → probe → upload ×2 → cleanup → registry delete. -/
def generate_video (st : SvcState) (payload : Option Payload)
    (sid ts : String) (o : EnhOracle) : EnhResult :=
  -- line 366: `if len(active_jobs) >= MAX_CONCURRENT_JOBS: ... 429`
  if MAX_CONCURRENT_JOBS ≤ st.jobs.length then
    { status := 429, jobs := st.jobs, files := st.files, validated := false,
      peakJobs := st.jobs.length, videoUrl := none, audioUrl := none,
      duration := none }
  else
    match payload with
    | none =>
      -- line 375: `raise BadRequest("No JSON data provided")` → 400
      { status := 400, jobs := st.jobs, files := st.files, validated := false,
        peakJobs := st.jobs.length, videoUrl := none, audioUrl := none,
        duration := none }
    | some data =>
      match validate_request data with
      | .error _ =>
        -- a TypeError from validation is not a BadRequest → generic 500
        { status := 500, jobs := st.jobs, files := st.files, validated := true,
          peakJobs := st.jobs.length, videoUrl := none, audioUrl := none,
          duration := none }
      | .ok (false, _msg) =>
        -- line 380: `raise BadRequest(error_message)` → 400
        { status := 400, jobs := st.jobs, files := st.files, validated := true,
          peakJobs := st.jobs.length, videoUrl := none, audioUrl := none,
          duration := none }
      | .ok (true, _) =>
        -- line 394: insert into active_jobs
        let jobs1 := st.jobs ++ [sid]
        let peak := jobs1.length
        let aP := avatarPath ts sid
        let uP := audioPath ts sid
        let vP := videoPath ts sid
        let tf := [aP, uP, vP]     -- line 408: temp_files
        let dres := download_file_effect o aP st.files
        if ¬ dres.1 then failResult tf sid jobs1 dres.2 peak
        else
          let tres := generate_tts_audio o uP dres.2
          if ¬ tres.1 then failResult tf sid jobs1 tres.2 peak
          else
            let rres := generate_enhanced_video o vP tres.2
            if ¬ rres.1 then failResult tf sid jobs1 rres.2 peak
            else
              let fs3 := rres.2
              let dur := get_audio_duration o
              let vu := upload_to_s3 o.s3Available o.uploadVideoRaises
                ("generated/videos/" ++ ts ++ "/" ++ sid ++ ".mp4")
              let au := upload_to_s3 o.s3Available o.uploadAudioRaises
                ("generated/audio/" ++ ts ++ "/" ++ sid ++ ".wav")
              match vu, au with
              | some vurl, some aurl =>
                -- lines 439–459: cleanup, delete from registry, 200
                { status := 200, jobs := jobs1.filter (fun j => j ≠ sid),
                  files := cleanup_temp_files tf fs3, validated := true,
                  peakJobs := peak, videoUrl := some vurl,
                  audioUrl := some aurl, duration := some dur }
              | _, _ =>
                -- line 433: `raise Exception("Failed to upload ...")`
                failResult tf sid jobs1 fs3 peak

end Enhanced

namespace MainSvc

/-! ### main.py — the older service variant (only the two functions the
claims cite). -/

/-- main.py `download_file` (lines 100–114): `requests.get(url, stream=True,
timeout=30)`, `raise_for_status`, then every chunk of the body is written
with no size accounting whatsoever; returns True unless the request itself
failed.  `chunks` are the sizes of the streamed body chunks — note they do
not influence the result. -/
def download_file (requestOk : Bool) (chunks : List Nat) : Bool :=
  if requestOk then
    -- `for chunk in response.iter_content(chunk_size=8192): f.write(chunk)`
    match chunks with
    | _ => true
  else false

/-- main.py `upload_to_s3` (lines 305–339): tries the real boto3 upload and
builds the regional URL; when anything raises it falls back to a mock URL
(no region in the host) — it never returns `None`. -/
def upload_to_s3 (uploadRaises : Bool) (s3Key : String) : Option String :=
  if uploadRaises then
    some ("https://lexora-assets.s3.amazonaws.com/" ++ s3Key)
  else
    some ("https://lexora-assets.s3.ap-south-1.amazonaws.com/" ++ s3Key)

end MainSvc

namespace AppMain

/-! ### app/video_sadtalker.py -/

/-- What the SadTalker subprocess run did. -/
inductive SadRun where
  /-- return code 0; `foundVideo` says whether an `.mp4` was found in the
  results directory afterwards. -/
  | success (foundVideo : Bool)
  /-- nonzero return code. -/
  | failed
  /-- `subprocess.TimeoutExpired` after 300 s. -/
  | timedOut
  deriving Repr, DecidableEq

/-- Outcomes of the external calls `generate_video_with_sadtalker` makes. -/
structure SadOracle where
  /-- `os.path.exists(inference_script)` — is the SadTalker engine present? -/
  inferenceScriptExists : Bool
  /-- how the subprocess run went (when the engine was present). -/
  run : SadRun
  /-- an unexpected exception around the subprocess machinery (caught by
  the outermost `except`). -/
  raisedOutside : Bool
  /-- the `open(output_path,'wb')`/write in `create_placeholder_video`
  succeeded. -/
  placeholderWriteOk : Bool
  deriving Repr, DecidableEq

/-- What ends up at the requested output path. -/
inductive Artifact where
  | noFile
  | realVideo
  | placeholder
  deriving Repr, DecidableEq

/-- `create_placeholder_video` (lines 117–129): writes a minimal valid MP4
container (`ftyp mp42` box) and returns True; False only if the write
itself raises. -/
def create_placeholder_video (o : SadOracle) : Bool × Artifact :=
  if o.placeholderWriteOk then (true, .placeholder) else (false, .noFile)

/-- `generate_video_with_sadtalker` (lines 5–115).  Engine missing, engine
failure, timeout, no output found, or any unexpected exception all fall
back to `create_placeholder_video`; only a successful run whose output file
was found yields the real video (moved to `output_path`). -/
def generate_video_with_sadtalker (o : SadOracle) : Bool × Artifact :=
  if o.raisedOutside then create_placeholder_video o
  else if ¬ o.inferenceScriptExists then create_placeholder_video o
  else
    match o.run with
    | .success true => (true, .realVideo)
    | .success false => create_placeholder_video o
    | .failed => create_placeholder_video o
    | .timedOut => create_placeholder_video o

/-! ### app/tts_elevenlabs.py -/

/-- The default ElevenLabs voice id baked into
`generate_audio_elevenlabs`'s signature. -/
def DEFAULT_VOICE_ID : String := "21m00Tcm4TlvDq8ikWAM"

/-- `generate_audio_elevenlabs(script, output_path, voice_id=...)`:
writes the audio and returns True when the provider answers 200, raises
`Exception` otherwise. -/
def generate_audio_elevenlabs (providerStatus : Nat) : Except PyError Bool :=
  if providerStatus = 200 then .ok true
  else .error (.badRequest "ElevenLabs TTS failed")

/-! ### app/main.py -/

/-- Outcomes of the external calls inside `clone_voice_from_sample`. -/
structure CloneOracle where
  /-- `os.getenv("ELEVENLABS_API_KEY")` is set. -/
  apiKeyPresent : Bool
  /-- status code of the `requests.get(voice_sample_url)` download. -/
  sampleDownloadStatus : Nat
  /-- status code of the `POST /v1/voices/add` call. -/
  providerStatus : Nat
  /-- `response.json().get("voice_id")` of a 200 provider answer. -/
  providerVoiceId : Option String
  /-- some other exception anywhere in the body (network failure,
  temp-file I/O, malformed JSON, ...). -/
  unexpectedRaise : Bool
  deriving Repr, DecidableEq

/-- `clone_voice_from_sample` (app/main.py lines 105–159).  The whole body
sits in one `try` whose `except` returns `None`, so the function is total:
every failure — missing API key, failed sample download, provider
rejection, or any exception — yields `none`, never a raise. -/
def clone_voice_from_sample (o : CloneOracle) : Option String :=
  if o.unexpectedRaise then none
  else if ¬ o.apiKeyPresent then none
  else if o.sampleDownloadStatus ≠ 200 then none
  else if o.providerStatus = 200 then o.providerVoiceId
  else none

/-- Which voice the TTS step was invoked with. -/
inductive VoiceChoice where
  /-- the pipeline never reached the TTS step. -/
  | notReached
  /-- `generate_audio_elevenlabs(script, audio_path)` — built-in default. -/
  | defaultVoice
  /-- `generate_audio_elevenlabs(script, audio_path, voice_id)`. -/
  | cloned (voiceId : String)
  deriving Repr, DecidableEq

/-- Outcomes of the external calls one app/main.py `/generate-video` run
performs. -/
structure AppOracle where
  /-- `requests.get(avatar_url)` or the image write raised. -/
  avatarFetchRaises : Bool
  clone : CloneOracle
  /-- ElevenLabs status for the synthesis call. -/
  ttsStatus : Nat
  sad : SadOracle
  /-- `aws_service.upload_video` raised internally (it then returns None). -/
  uploadVideoRaises : Bool
  /-- `aws_service.upload_audio` raised internally (it then returns None). -/
  uploadAudioRaises : Bool
  deriving Repr, DecidableEq

/-- aws_service.py `AWSService.upload_video` / `upload_audio`: return the
public S3 URL, or `None` when anything raises. -/
def aws_upload (raises : Bool) (url : String) : Option String :=
  if raises then none else some url

def OUTPUT_DIR : String := "static/generated"

/-- Result of one app/main.py `/generate-video` invocation. -/
structure AppResult where
  status : Nat
  videoUrl : Option String
  audioUrl : Option String
  duration : Option ℚ
  voiceUsed : VoiceChoice
  /-- what `generate_video_with_sadtalker` left at the output path. -/
  artifact : Artifact
  deriving Repr, DecidableEq

/-- app/main.py `generate_video` (lines 19–103).  Steps: presence check on
`script`/`avatar_url` (400), avatar download (any raise → outer except →
500), voice resolution (clone attempt iff `voice_sample_url` present,
falling back to the default voice when the clone returns None), ElevenLabs
TTS (raise → 500), SadTalker render (False → 500), S3 uploads with local-
path fallback URLs, duration estimated as `len(script) / 150` — the audio
asset is never probed. -/
def generate_video (p : Payload) (sid ts : String) (o : AppOracle) :
    AppResult :=
  -- `if not script or not avatar_url: ... 400`
  if p.script = "" ∨ p.avatar_url = "" then
    { status := 400, videoUrl := none, audioUrl := none, duration := none,
      voiceUsed := .notReached, artifact := .noFile }
  else if o.avatarFetchRaises then
    { status := 500, videoUrl := none, audioUrl := none, duration := none,
      voiceUsed := .notReached, artifact := .noFile }
  else
    -- Step 2: voice cloning / voice resolution
    let voice : VoiceChoice :=
      match p.voice_sample_url with
      | some _ =>
        match clone_voice_from_sample o.clone with
        | some vid => .cloned vid
        | none => .defaultVoice
      | none => .defaultVoice
    match generate_audio_elevenlabs o.ttsStatus with
    | .error _ =>
      { status := 500, videoUrl := none, audioUrl := none, duration := none,
        voiceUsed := voice, artifact := .noFile }
    | .ok _ =>
      -- Step 3: SadTalker
      let sres := generate_video_with_sadtalker o.sad
      let art := sres.2
      if ¬ sres.1 then
        { status := 500, videoUrl := none, audioUrl := none, duration := none,
          voiceUsed := voice, artifact := art }
      else
        -- Step 4: uploads, with local fallback URLs
        let s3v := aws_upload o.uploadVideoRaises
          ("https://lexora-assets.s3.ap-south-1.amazonaws.com/generated-videos/video_"
            ++ sid ++ "_" ++ ts ++ ".mp4")
        let s3a := aws_upload o.uploadAudioRaises
          ("https://lexora-assets.s3.ap-south-1.amazonaws.com/generated-audios/audio_"
            ++ sid ++ "_" ++ ts ++ ".mp3")
        let finalVideo := s3v.getD ("/" ++ OUTPUT_DIR ++ "/" ++ sid ++ ".mp4")
        let finalAudio := s3a.getD ("/" ++ OUTPUT_DIR ++ "/" ++ sid ++ ".mp3")
        -- `duration = len(script) / 150`
        { status := 200, videoUrl := some finalVideo,
          audioUrl := some finalAudio,
          duration := some (mkRat p.script.data.length 150),
          voiceUsed := voice, artifact := art }

end AppMain

/-! ### Shared fixtures for concrete runs -/

/-- The §8 scenario payload: `{script:"Hello world",
avatar_url:"https://x/img.jpg", voice_options:{language:"en-US", speed:1.0}}`. -/
def examplePayload : Payload :=
  { script := "Hello world", avatar_url := "https://x/img.jpg",
    voice_language := some "en-US", voice_speed := some (.jnum 1),
    voice_sample_url := none, lesson_id := "L1" }

/-- All external calls succeed; S3 detected unavailable at start (the mock
upload branch, which always yields URLs). -/
def healthyOracle : Enhanced.EnhOracle :=
  { downloadOk := true, downloadCreatedFile := false, ttsSaveOk := true,
    ttsSaveCreatedFile := true, ttsConvertCreatedOutput := true,
    renderOk := true, renderCreatedOutput := false, probeOk := true,
    probeDuration := 7, s3Available := false, uploadVideoRaises := false,
    uploadAudioRaises := false }

def emptyState : Enhanced.SvcState := { jobs := [], files := [] }

/-- A registry already at `MAX_CONCURRENT_JOBS = 5` entries. -/
def fullState : Enhanced.SvcState :=
  { jobs := ["j1", "j2", "j3", "j4", "j5"], files := [] }

/-- A run where `tts.save` raises after having created the
`'_temp.mp3'` file (gTTS opens the output file before streaming into it,
so any network failure during synthesis leaves the file behind). -/
def ttsLeakOracle : Enhanced.EnhOracle :=
  { healthyOracle with ttsSaveOk := false, ttsSaveCreatedFile := true }

/-- A run where the ffmpeg render step fails and leaves no output. -/
def renderFailOracle : Enhanced.EnhOracle :=
  { healthyOracle with renderOk := false, renderCreatedOutput := false }

/-- A run where ffprobe is unavailable but everything else succeeds. -/
def probeFailOracle : Enhanced.EnhOracle :=
  { healthyOracle with probeOk := false }

/-- A run where S3 was reachable at startup but the video upload raises. -/
def uploadFailOracle : Enhanced.EnhOracle :=
  { healthyOracle with s3Available := true, uploadVideoRaises := true }

/-- A voice-clone attempt that fails at the provider (rejection). -/
def cloneRejectOracle : AppMain.CloneOracle :=
  { apiKeyPresent := true, sampleDownloadStatus := 200, providerStatus := 422,
    providerVoiceId := none, unexpectedRaise := false }

/-- An app-pipeline run: avatar fetch fine, clone rejected by the provider,
TTS fine, SadTalker engine absent but the placeholder write succeeds,
uploads fine. -/
def appDegradedOracle : AppMain.AppOracle :=
  { avatarFetchRaises := false, clone := cloneRejectOracle, ttsStatus := 200,
    sad := { inferenceScriptExists := false, run := .failed,
             raisedOutside := false, placeholderWriteOk := true },
    uploadVideoRaises := false, uploadAudioRaises := false }

/-- The example payload with a voice sample attached. -/
def examplePayloadWithSample : Payload :=
  { examplePayload with voice_sample_url := some "https://x/sample.mp3" }

/-- The example payload with a string where a numeric speed belongs. -/
def stringSpeedPayload : Payload :=
  { examplePayload with voice_speed := some (.jstr "1.0") }

/-! ### Helper lemmas -/

theorem mem_insertFile {f p : String} {fs : List String} :
    f ∈ Enhanced.insertFile p fs ↔ f ∈ fs ∨ f = p := by
  unfold Enhanced.insertFile
  by_cases h : p ∈ fs
  · simp only [h, if_true]
    constructor
    · exact Or.inl
    · rintro (hf | rfl)
      · exact hf
      · exact h
  · simp [h]

theorem not_mem_self_filter (sid : String) (l : List String) :
    sid ∉ l.filter (fun j => j ≠ sid) := by
  simp [List.mem_filter]

theorem mem_cleanup {f : String} {tf fs : List String} :
    f ∈ Enhanced.cleanup_temp_files tf fs ↔ f ∈ fs ∧ f ∉ tf := by
  simp [Enhanced.cleanup_temp_files, List.mem_filter]

theorem mem_download_snd {o : Enhanced.EnhOracle} {p f : String}
    {fs : List String} :
    f ∈ (Enhanced.download_file_effect o p fs).2 →
      f ∈ fs ∨ f = p := by
  unfold Enhanced.download_file_effect
  split <;> [skip; split] <;> simp [mem_insertFile] <;> tauto

theorem mem_tts_snd {o : Enhanced.EnhOracle} {up f : String}
    {fs : List String} :
    f ∈ (Enhanced.generate_tts_audio o up fs).2 →
      f ∈ fs ∨ f = up ∨
        (f = Enhanced.ttsTempPath up ∧ o.ttsSaveOk = false ∧
          o.ttsSaveCreatedFile = true) := by
  unfold Enhanced.generate_tts_audio
  split
  next hsave =>
    intro hf
    simp only [Enhanced.removeFile, List.mem_filter] at hf
    obtain ⟨hf2, hne⟩ := hf
    have hne' : f ≠ Enhanced.ttsTempPath up := by simpa using hne
    have hcases : f ∈ fs ∨ f = up ∨ f = Enhanced.ttsTempPath up := by
      revert hf2
      split <;> simp [mem_insertFile] <;> tauto
    rcases hcases with h | h | h
    · exact Or.inl h
    · exact Or.inr (Or.inl h)
    · exact absurd h hne'
  next hsave =>
    split
    next hcreated =>
      simp only [mem_insertFile]
      rintro (hf | rfl)
      · exact Or.inl hf
      · exact Or.inr (Or.inr ⟨rfl, by simpa using hsave, hcreated⟩)
    next => exact fun hf => Or.inl hf

theorem mem_render_snd {o : Enhanced.EnhOracle} {vp f : String}
    {fs : List String} :
    f ∈ (Enhanced.generate_enhanced_video o vp fs).2 →
      f ∈ fs ∨ f = vp := by
  unfold Enhanced.generate_enhanced_video
  split <;> [skip; split] <;> simp [mem_insertFile] <;> tauto

/-- C1 (amended): after the generate-video handler returns, every scratch
file registered in `temp_files` (the avatar, audio and video session paths)
has been deleted on every exit path; the only file created during the run
that can remain is the intermediate `'_temp.mp3'` of `generate_tts_audio`,
and it remains exactly when the TTS save raised after creating the file
(it is never added to `temp_files`, so the unconditional cleanup does not
cover it). -/
theorem claim1_scratch_cleanup (st : Enhanced.SvcState) (p : Option Payload)
    (sid ts : String) (o : Enhanced.EnhOracle) (f : String)
    (hf : f ∈ (Enhanced.generate_video st p sid ts o).files) :
    f ∈ st.files ∨
      (f = Enhanced.ttsTempPath (Enhanced.audioPath ts sid) ∧
        o.ttsSaveOk = false ∧ o.ttsSaveCreatedFile = true) := by
  unfold Enhanced.generate_video at hf
  split at hf
  · exact Or.inl hf
  split at hf
  · exact Or.inl hf
  split at hf
  · exact Or.inl hf
  · exact Or.inl hf
  · simp only [Enhanced.failResult] at hf
    split at hf
    · -- download failed
      rw [mem_cleanup] at hf
      obtain ⟨hin, hnotin⟩ := hf
      rcases mem_download_snd hin with h | h
      · exact Or.inl h
      · simp [h] at hnotin
    split at hf
    · -- TTS failed
      rw [mem_cleanup] at hf
      obtain ⟨hin, hnotin⟩ := hf
      rcases mem_tts_snd hin with h | h | hleak
      · rcases mem_download_snd h with h2 | h2
        · exact Or.inl h2
        · simp [h2] at hnotin
      · simp [h] at hnotin
      · exact Or.inr hleak
    split at hf
    · -- render failed
      rw [mem_cleanup] at hf
      obtain ⟨hin, hnotin⟩ := hf
      rcases mem_render_snd hin with h | h
      · rcases mem_tts_snd h with h2 | h2 | hleak
        · rcases mem_download_snd h2 with h3 | h3
          · exact Or.inl h3
          · simp [h3] at hnotin
        · simp [h2] at hnotin
        · exact Or.inr hleak
      · simp [h] at hnotin
    · -- uploads: success record or upload-failure, same file set
      split at hf <;>
      · rw [mem_cleanup] at hf
        obtain ⟨hin, hnotin⟩ := hf
        rcases mem_render_snd hin with h | h
        · rcases mem_tts_snd h with h2 | h2 | hleak
          · rcases mem_download_snd h2 with h3 | h3
            · exact Or.inl h3
            · simp [h3] at hnotin
          · simp [h2] at hnotin
          · exact Or.inr hleak
        · simp [h] at hnotin

/-- Every admitted run ends with the session id filtered out of the
registry it was inserted into; every non-admitted run leaves the registry
untouched.  The peak registry size is recorded alongside. -/
theorem Enhanced.jobs_shape (st : Enhanced.SvcState) (p : Option Payload)
    (sid ts : String) (o : Enhanced.EnhOracle) :
    ((Enhanced.generate_video st p sid ts o).jobs = st.jobs ∧
      (Enhanced.generate_video st p sid ts o).peakJobs = st.jobs.length) ∨
    ((Enhanced.generate_video st p sid ts o).jobs
        = (st.jobs ++ [sid]).filter (fun j => j ≠ sid) ∧
      (Enhanced.generate_video st p sid ts o).peakJobs = st.jobs.length + 1 ∧
      st.jobs.length < Enhanced.MAX_CONCURRENT_JOBS) := by
  unfold Enhanced.generate_video
  split
  · exact Or.inl ⟨rfl, rfl⟩
  next hbusy =>
    have hlt : st.jobs.length < Enhanced.MAX_CONCURRENT_JOBS :=
      Nat.lt_of_not_le hbusy
    split
    · exact Or.inl ⟨rfl, rfl⟩
    split
    · exact Or.inl ⟨rfl, rfl⟩
    · exact Or.inl ⟨rfl, rfl⟩
    · refine Or.inr ?_
      simp only [Enhanced.failResult]
      split <;>
        [skip;
         (split <;>
           [skip;
            (split <;>
              [skip;
               (split <;> simp [List.length_append, hlt])])])] <;>
        simp [List.length_append, hlt]

/-- C1 (counterexample): a TTS failure in which `tts.save` raised after
creating the temp file ends the run with status 500 while the scratch file
`C:/temp/wav2lip/ts_sid_audio.wav_temp.mp3`, created during this run
(the registry of pre-existing files was empty), still exists — so not every
scratch file created during the run was deleted before the failure was
propagated. -/
theorem claim1_cex :
    (Enhanced.generate_video emptyState (some examplePayload)
        "sid" "ts" ttsLeakOracle).status = 500 ∧
      (Enhanced.generate_video emptyState (some examplePayload)
        "sid" "ts" ttsLeakOracle).files
        = [Enhanced.ttsTempPath (Enhanced.audioPath "ts" "sid")] ∧
      emptyState.files = [] := by
  refine ⟨by decide, by decide, rfl⟩

/-- C1 witness: the amended theorem applied to the leaking run. -/
theorem claim1_witness :
    Enhanced.ttsTempPath (Enhanced.audioPath "ts" "sid") ∈ emptyState.files ∨
      (Enhanced.ttsTempPath (Enhanced.audioPath "ts" "sid")
          = Enhanced.ttsTempPath (Enhanced.audioPath "ts" "sid") ∧
        ttsLeakOracle.ttsSaveOk = false ∧
        ttsLeakOracle.ttsSaveCreatedFile = true) :=
  claim1_scratch_cleanup emptyState (some examplePayload) "sid" "ts"
    ttsLeakOracle (Enhanced.ttsTempPath (Enhanced.audioPath "ts" "sid"))
    (by decide)

/-- C2: for every run of the generate-video handler — success or any
failure branch — a freshly generated session id is absent from the
active-job registry once the handler has returned. -/
theorem claim2_registry_cleared (st : Enhanced.SvcState) (p : Option Payload)
    (sid ts : String) (o : Enhanced.EnhOracle) (hfresh : sid ∉ st.jobs) :
    sid ∉ (Enhanced.generate_video st p sid ts o).jobs := by
  rcases Enhanced.jobs_shape st p sid ts o with ⟨hj, _⟩ | ⟨hj, _, _⟩
  · rw [hj]; exact hfresh
  · rw [hj]; exact not_mem_self_filter sid _

/-- C2 witness: a concrete failing run (TTS failure) with a fresh id. -/
theorem claim2_witness :
    "sid" ∉ emptyState.jobs ∧
      "sid" ∉ (Enhanced.generate_video emptyState (some examplePayload)
        "sid" "ts" ttsLeakOracle).jobs :=
  ⟨by decide,
    claim2_registry_cleared emptyState (some examplePayload) "sid" "ts"
      ttsLeakOracle (by decide)⟩

/-- C3: when the active-job count is at or above `MAX_CONCURRENT_JOBS`,
the handler answers 429 and `validate_request` is never invoked — the
capacity check strictly precedes semantic validation, whatever the
payload. -/
theorem claim3_busy_precedes_validation (st : Enhanced.SvcState)
    (p : Option Payload) (sid ts : String) (o : Enhanced.EnhOracle)
    (hbusy : Enhanced.MAX_CONCURRENT_JOBS ≤ st.jobs.length) :
    (Enhanced.generate_video st p sid ts o).status = 429 ∧
      (Enhanced.generate_video st p sid ts o).validated = false := by
  unfold Enhanced.generate_video
  rw [if_pos hbusy]
  exact ⟨rfl, rfl⟩

/-- C3 witness: a full registry rejects even an invalid payload
(string-typed speed) with 429, without validating it. -/
theorem claim3_witness :
    Enhanced.MAX_CONCURRENT_JOBS ≤ fullState.jobs.length ∧
      ((Enhanced.generate_video fullState (some stringSpeedPayload)
          "sid" "ts" healthyOracle).status = 429 ∧
        (Enhanced.generate_video fullState (some stringSpeedPayload)
          "sid" "ts" healthyOracle).validated = false) :=
  ⟨by decide,
    claim3_busy_precedes_validation fullState (some stringSpeedPayload)
      "sid" "ts" healthyOracle (by decide)⟩

/-- C4: the active-job registry never exceeds `MAX_CONCURRENT_JOBS`: if the
bound holds when a handler run starts, it holds at every observation point
during the run (the peak size, reached right after admission) and when the
run returns. -/
theorem claim4_registry_bound (st : Enhanced.SvcState) (p : Option Payload)
    (sid ts : String) (o : Enhanced.EnhOracle)
    (hst : st.jobs.length ≤ Enhanced.MAX_CONCURRENT_JOBS) :
    (Enhanced.generate_video st p sid ts o).peakJobs
        ≤ Enhanced.MAX_CONCURRENT_JOBS ∧
      (Enhanced.generate_video st p sid ts o).jobs.length
        ≤ Enhanced.MAX_CONCURRENT_JOBS := by
  rcases Enhanced.jobs_shape st p sid ts o with ⟨hj, hp⟩ | ⟨hj, hp, hlt⟩
  · rw [hj, hp]; exact ⟨hst, hst⟩
  · rw [hj, hp]
    constructor
    · omega
    · calc ((st.jobs ++ [sid]).filter (fun j => j ≠ sid)).length
          ≤ (st.jobs ++ [sid]).length := List.length_filter_le _ _
        _ = st.jobs.length + 1 := by simp
        _ ≤ Enhanced.MAX_CONCURRENT_JOBS := hlt

/-- A voice-clone attempt that fails for any of the three documented
reasons yields `none` (helper for C5). -/
theorem clone_fail_none (o : AppMain.CloneOracle)
    (h : o.apiKeyPresent = false ∨ o.sampleDownloadStatus ≠ 200
      ∨ o.providerStatus ≠ 200) :
    AppMain.clone_voice_from_sample o = none := by
  rcases h with h | h | h <;>
    unfold AppMain.clone_voice_from_sample <;>
    simp [h]

/-- C5: when a voice sample is supplied and the clone attempt fails for any
of the documented reasons (missing API key, sample download failure,
provider rejection), `clone_voice_from_sample` returns `none` — it is a
total function, so it cannot raise — and the pipeline synthesizes with the
default voice and completes with a 200 response when the remaining steps
are healthy. -/
theorem claim5_clone_failure_not_fatal (p : Payload) (sid ts : String)
    (o : AppMain.AppOracle) (u : String)
    (hs : p.voice_sample_url = some u)
    (hclone : o.clone.apiKeyPresent = false ∨ o.clone.sampleDownloadStatus ≠ 200
      ∨ o.clone.providerStatus ≠ 200)
    (hscript : p.script ≠ "") (havatar : p.avatar_url ≠ "")
    (hfetch : o.avatarFetchRaises = false)
    (htts : o.ttsStatus = 200)
    (hrender : (AppMain.generate_video_with_sadtalker o.sad).1 = true) :
    AppMain.clone_voice_from_sample o.clone = none ∧
      (AppMain.generate_video p sid ts o).status = 200 ∧
      (AppMain.generate_video p sid ts o).voiceUsed
        = AppMain.VoiceChoice.defaultVoice := by
  have hnone := clone_fail_none o.clone hclone
  refine ⟨hnone, ?_⟩
  unfold AppMain.generate_video
  rw [if_neg (by simp [hscript, havatar]), if_neg (by simp [hfetch])]
  simp only [hs, hnone, AppMain.generate_audio_elevenlabs, htts,
    if_pos rfl]
  simp [hrender]

/-- C5 witness: a provider-rejected clone on the sample-bearing example
payload still ends in a 200 with the default voice. -/
theorem claim5_witness :
    examplePayloadWithSample.voice_sample_url = some "https://x/sample.mp3" ∧
      (AppMain.clone_voice_from_sample appDegradedOracle.clone = none ∧
        (AppMain.generate_video examplePayloadWithSample "sid" "ts"
          appDegradedOracle).status = 200 ∧
        (AppMain.generate_video examplePayloadWithSample "sid" "ts"
          appDegradedOracle).voiceUsed = AppMain.VoiceChoice.defaultVoice) :=
  ⟨rfl,
    claim5_clone_failure_not_fatal examplePayloadWithSample "sid" "ts"
      appDegradedOracle "https://x/sample.mp3" rfl
      (Or.inr (Or.inr (by decide))) (by decide) (by decide) rfl rfl
      (by decide)⟩

/-- C6 (counterexample): in the enhanced service, a failing render engine
does not produce any fallback artifact — the handler raises and answers
500 with no video URL, contradicting the claim that a render failure still
yields a fallback video artifact and a 200 response. -/
theorem claim6_cex :
    (Enhanced.generate_video emptyState (some examplePayload) "sid" "ts"
        renderFailOracle).status = 500 ∧
      (Enhanced.generate_video emptyState (some examplePayload) "sid" "ts"
        renderFailOracle).videoUrl = none := by
  exact ⟨by decide, by rfl⟩

/-- C6 (amended): in the SadTalker-backed pipeline (`app/main.py` with
`video_sadtalker.py`) a missing, failing or timed-out render engine still
produces the minimal placeholder MP4 at the output path and the job
completes with 200 (provided the placeholder write itself succeeds and the
earlier steps are healthy); the enhanced service has no such fallback and
answers 500 on render failure. -/
theorem claim6_renderer_fallback (p : Payload) (sid ts : String)
    (o : AppMain.AppOracle)
    (heng : o.sad.inferenceScriptExists = false ∨ o.sad.run = .failed
      ∨ o.sad.run = .timedOut)
    (hpw : o.sad.placeholderWriteOk = true)
    (hscript : p.script ≠ "") (havatar : p.avatar_url ≠ "")
    (hfetch : o.avatarFetchRaises = false) (htts : o.ttsStatus = 200) :
    AppMain.generate_video_with_sadtalker o.sad
        = (true, AppMain.Artifact.placeholder) ∧
      (AppMain.generate_video p sid ts o).status = 200 ∧
      (AppMain.generate_video p sid ts o).artifact
        = AppMain.Artifact.placeholder := by
  have hsad : AppMain.generate_video_with_sadtalker o.sad
      = (true, AppMain.Artifact.placeholder) := by
    cases hro : o.sad.raisedOutside <;>
      cases hie : o.sad.inferenceScriptExists <;>
      rcases heng with h | h | h <;>
      simp_all [AppMain.generate_video_with_sadtalker,
        AppMain.create_placeholder_video]
  refine ⟨hsad, ?_⟩
  unfold AppMain.generate_video
  rw [if_neg (by simp [hscript, havatar]), if_neg (by simp [hfetch])]
  simp only [AppMain.generate_audio_elevenlabs, htts, if_pos rfl]
  simp [hsad]

/-- C6 witness: the degraded app run (engine absent, placeholder written)
yields the placeholder artifact and a 200. -/
theorem claim6_witness :
    AppMain.generate_video_with_sadtalker appDegradedOracle.sad
        = (true, AppMain.Artifact.placeholder) ∧
      (AppMain.generate_video examplePayload "sid" "ts"
        appDegradedOracle).status = 200 ∧
      (AppMain.generate_video examplePayload "sid" "ts"
        appDegradedOracle).artifact = AppMain.Artifact.placeholder :=
  claim6_renderer_fallback examplePayload "sid" "ts" appDegradedOracle
    (Or.inl rfl) rfl (by decide) (by decide) rfl rfl

/-- C7 (counterexample): when S3 was available at service start but the
upload call itself raises, the enhanced `upload_to_s3` returns `None`
instead of a mock URL, and the overall job fails with 500 — so a storage
failure at publish time does fail the job. -/
theorem claim7_cex :
    Enhanced.upload_to_s3 true true "generated/videos/ts/sid.mp4" = none ∧
      (Enhanced.generate_video emptyState (some examplePayload) "sid" "ts"
        uploadFailOracle).status = 500 :=
  ⟨rfl, by decide⟩

/-- C7 (amended): when storage was detected unavailable at service start
(`s3_available = False`), the enhanced `upload_to_s3` returns the mock URL
of the same shape as a real one, never `None`; `main.py`'s `upload_to_s3`
never returns `None` for any outcome (mock URL on any failure); but the
enhanced service returns `None` when storage was available at start and
the upload itself raises. -/
theorem claim7_upload_degradation :
    (∀ (raises : Bool) (k : String),
        Enhanced.upload_to_s3 false raises k = some (Enhanced.s3Url k)) ∧
      (∀ (raises : Bool) (k : String),
        (MainSvc.upload_to_s3 raises k).isSome = true) ∧
      (∀ k : String, Enhanced.upload_to_s3 true true k = none) := by
  refine ⟨fun r k => rfl, fun r k => ?_, fun k => rfl⟩
  cases r <;> rfl

/-- C8 (counterexample): a successful enhanced run in which ffprobe is
unavailable reports a duration of the constant 5.0 seconds, which is not
the script-length estimate (`len("Hello world")/150 = 11/150`) the claim
says the code falls back to. -/
theorem claim8_cex :
    (Enhanced.generate_video emptyState (some examplePayload) "sid" "ts"
        probeFailOracle).status = 200 ∧
      (Enhanced.generate_video emptyState (some examplePayload) "sid" "ts"
        probeFailOracle).duration = some 5 ∧
      (5 : ℚ) ≠ mkRat ("Hello world".data.length) 150 := by
  refine ⟨by decide, by rfl, by decide⟩

/-- C8 (amended): the duration of a successful response is, in the
enhanced service, the ffprobe'd duration of the synthesized audio when the
probe succeeds and the constant 5.0 seconds when it fails; the app service
always reports `len(script)/150` and never probes the audio asset. -/
theorem claim8_duration_sources :
    (∀ (st : Enhanced.SvcState) (p : Option Payload) (sid ts : String)
        (o : Enhanced.EnhOracle),
        (Enhanced.generate_video st p sid ts o).status = 200 →
          (Enhanced.generate_video st p sid ts o).duration
            = some (if o.probeOk then o.probeDuration else 5)) ∧
      (∀ (p : Payload) (sid ts : String) (o : AppMain.AppOracle),
        (AppMain.generate_video p sid ts o).status = 200 →
          (AppMain.generate_video p sid ts o).duration
            = some (mkRat p.script.data.length 150)) := by
  constructor
  · intro st p sid ts o
    unfold Enhanced.generate_video
    split
    · intro h; simp at h
    split
    · intro h; simp at h
    split
    · intro h; simp at h
    · intro h; simp at h
    · simp only [Enhanced.failResult]
      split
      · intro h; simp at h
      split
      · intro h; simp at h
      split
      · intro h; simp at h
      · split
        · intro _; simp [Enhanced.get_audio_duration]
        · intro h; simp at h
  · intro p sid ts o
    unfold AppMain.generate_video
    by_cases h1 : (p.script = "" ∨ p.avatar_url = "")
    · rw [if_pos h1]; intro h; simp at h
    rw [if_neg h1]
    by_cases h2 : o.avatarFetchRaises = true
    · rw [if_pos h2]; intro h; simp at h
    rw [if_neg h2]
    rcases htts : AppMain.generate_audio_elevenlabs o.ttsStatus with e | b
    · simp only [htts]; intro h; simp at h
    · simp only [htts]
      by_cases h3 : (AppMain.generate_video_with_sadtalker o.sad).1 = true
      · simp [h3]
      · simp [h3]

/-- C8 witness: the amended theorem at a healthy probed run and a healthy
app run. -/
theorem claim8_witness :
    (Enhanced.generate_video emptyState (some examplePayload) "sid" "ts"
        healthyOracle).duration
      = some (if healthyOracle.probeOk then healthyOracle.probeDuration else 5) ∧
      (AppMain.generate_video examplePayload "sid" "ts"
          appDegradedOracle).duration
        = some (mkRat examplePayload.script.data.length 150) :=
  ⟨claim8_duration_sources.1 emptyState (some examplePayload) "sid" "ts"
      healthyOracle (by decide),
    claim8_duration_sources.2 examplePayload "sid" "ts" appDegradedOracle
      (by decide)⟩

/-- The body loop of the enhanced `download_file` keeps the running byte
count within `MAX_FILE_SIZE` whenever it returns True (helper for C9). -/
theorem streamChunks_bound : ∀ (chunks : List Nat) (acc : Nat),
    acc ≤ Enhanced.MAX_FILE_SIZE →
    Enhanced.download_file_run.streamChunks acc chunks = true →
    acc + chunks.sum ≤ Enhanced.MAX_FILE_SIZE
  | [], acc, hacc, _ => by simpa using hacc
  | c :: rest, acc, hacc, h => by
    unfold Enhanced.download_file_run.streamChunks at h
    split at h
    · exact absurd h (by simp)
    next hle =>
      have hstep : acc + c ≤ Enhanced.MAX_FILE_SIZE := Nat.le_of_not_lt hle
      have hrec := streamChunks_bound rest (acc + c) hstep h
      simpa [List.sum_cons, Nat.add_assoc] using hrec

/-- C9 (counterexample): `main.py`'s `download_file` — one of the two asset
fetchers the sources name — imposes no size bound at all: a streamed body
of 12801 chunks of 8192 bytes (104 865 792 bytes, above `MAX_FILE_SIZE`)
is accepted. -/
theorem claim9_cex :
    MainSvc.download_file true (List.replicate 12801 8192) = true ∧
      Enhanced.MAX_FILE_SIZE < (List.replicate 12801 8192).sum := by
  refine ⟨rfl, ?_⟩
  rw [List.sum_replicate]
  norm_num [Enhanced.MAX_FILE_SIZE]

/-- C9 (amended): the enhanced service's `download_file` does enforce the
bound mid-stream — it succeeds only when the total body size is at most
`MAX_FILE_SIZE`, content-length header present or not — but `main.py`'s
`download_file` succeeds on a body of any size. -/
theorem claim9_download_bound :
    (∀ (requestOk : Bool) (contentLength : Option Nat) (chunks : List Nat),
        Enhanced.download_file_run requestOk contentLength chunks = true →
          chunks.sum ≤ Enhanced.MAX_FILE_SIZE) ∧
      (∀ chunks : List Nat, MainSvc.download_file true chunks = true) := by
  constructor
  · intro rOk cl chunks h
    unfold Enhanced.download_file_run at h
    split at h
    · exact absurd h (by simp)
    · split at h
      · split at h
        · exact absurd h (by simp)
        · simpa using streamChunks_bound chunks 0 (Nat.zero_le _) h
      · simpa using streamChunks_bound chunks 0 (Nat.zero_le _) h
  · intro chunks; rfl

/-- C9 witness: a bounded two-chunk stream without a content-length header
passes the enhanced fetcher and is, as the theorem states, within bounds. -/
theorem claim9_witness :
    Enhanced.download_file_run true none [8192, 100] = true ∧
      ([8192, 100] : List Nat).sum ≤ Enhanced.MAX_FILE_SIZE :=
  ⟨by decide, claim9_download_bound.1 true none [8192, 100] (by decide)⟩

/-- C10: a payload whose `voice_options.speed` is a string (so that the
earlier script/URL/language checks pass and the range comparison is
reached) makes `validate_request` raise `TypeError` in
`0.5 <= speed <= 2.0`, and the handler — whose `except BadRequest` does
not catch `TypeError` — answers 500 instead of a 400 validation error. -/
theorem claim10_string_speed_type_error (st : Enhanced.SvcState)
    (p : Payload) (sid ts : String) (o : Enhanced.EnhOracle) (s : String)
    (hspeed : p.voice_speed = some (.jstr s))
    (hscript : pyStrip p.script ≠ "")
    (hlen : (pyStrip p.script).data.length ≤ Enhanced.MAX_SCRIPT_LENGTH)
    (hurl1 : pyStrip p.avatar_url ≠ "")
    (hurl2 : (pyStartsWith (pyStrip p.avatar_url) "http://"
        || pyStartsWith (pyStrip p.avatar_url) "https://") = true)
    (hlang : Enhanced.langCode (Enhanced.languageOf p)
      ∈ Enhanced.SUPPORTED_LANGUAGES)
    (hcap : st.jobs.length < Enhanced.MAX_CONCURRENT_JOBS) :
    Enhanced.validate_request p = .error .typeError ∧
      (Enhanced.generate_video st (some p) sid ts o).status = 500 := by
  have hval : Enhanced.validate_request p = .error .typeError := by
    unfold Enhanced.validate_request
    rw [if_neg hscript, if_neg (by omega), if_neg hurl1,
      if_neg (by simp [hurl2])]
    rw [if_neg (by simp [hlang])]
    simp only [Enhanced.speedVal, hspeed, Option.getD, pyChainedLe, pyLeNum]
    rfl
  refine ⟨hval, ?_⟩
  unfold Enhanced.generate_video
  rw [if_neg (by omega)]
  simp [hval]

/-- C10 witness: the example payload with `speed = "1.0"` on an idle
service: `validate_request` raises `TypeError` and the response is 500. -/
theorem claim10_witness :
    Enhanced.validate_request stringSpeedPayload = .error .typeError ∧
      (Enhanced.generate_video emptyState (some stringSpeedPayload)
        "sid" "ts" healthyOracle).status = 500 :=
  claim10_string_speed_type_error emptyState stringSpeedPayload "sid" "ts"
    healthyOracle "1.0" rfl (by decide) (by decide) (by decide) (by decide)
    (by decide) (by decide)

/-- C4 witness: a registry holding 4 jobs admits a 5th and stays within
the bound throughout. -/
theorem claim4_witness :
    ({ jobs := ["j1", "j2", "j3", "j4"], files := [] } :
        Enhanced.SvcState).jobs.length ≤ Enhanced.MAX_CONCURRENT_JOBS ∧
      ((Enhanced.generate_video { jobs := ["j1", "j2", "j3", "j4"], files := [] }
          (some examplePayload) "sid" "ts" healthyOracle).peakJobs
          ≤ Enhanced.MAX_CONCURRENT_JOBS ∧
        (Enhanced.generate_video { jobs := ["j1", "j2", "j3", "j4"], files := [] }
          (some examplePayload) "sid" "ts" healthyOracle).jobs.length
          ≤ Enhanced.MAX_CONCURRENT_JOBS) :=
  ⟨by decide,
    claim4_registry_bound { jobs := ["j1", "j2", "j3", "j4"], files := [] }
      (some examplePayload) "sid" "ts" healthyOracle (by decide)⟩

end Wav2Lip
